import Mathlib

/-!
Verification development for the TrafficEye MMR REST-API client
(`example.py`).  The client is shallowly embedded: the filesystem and the
HTTP transport are an explicit environment (`Env`), every outgoing HTTP
request is recorded in a trace, and every raised Python exception becomes
a constructor of `ClientError`.  JSON values exchanged with the server are
modelled by the inductive type `Json`; the result of `json.loads` on a
response body is part of the modelled response (`HttpResponse.jsonBody`,
`none` when parsing would raise `json.JSONDecodeError`).
-/

set_option autoImplicit false

namespace TrafficEye

/-- JSON values, as produced by Python's `json` module (`dict` payloads are
association lists in insertion order). -/
inductive Json where
  | null
  | bool (b : Bool)
  | num (n : Int)
  | str (s : String)
  | arr (xs : List Json)
  | obj (fields : List (String × Json))

mutual

/-- `json.dumps` with Python's default separators.  String escaping is not
modelled; no string serialised by the client requires it. -/
def json_dumps : Json → String
  | .null => "null"
  | .bool true => "true"
  | .bool false => "false"
  | .num n => toString n
  | .str s => "\"" ++ s ++ "\""
  | .arr xs => "[" ++ dumpsArray xs ++ "]"
  | .obj fs => "\x7b" ++ dumpsFields fs ++ "\x7d"

/-- Comma-separated rendering of a JSON array body. -/
def dumpsArray : List Json → String
  | [] => ""
  | [x] => json_dumps x
  | x :: xs => json_dumps x ++ ", " ++ dumpsArray xs

/-- Comma-separated rendering of a JSON object body. -/
def dumpsFields : List (String × Json) → String
  | [] => ""
  | [(k, v)] => "\"" ++ k ++ "\": " ++ json_dumps v
  | (k, v) :: xs => "\"" ++ k ++ "\": " ++ json_dumps v ++ ", " ++ dumpsFields xs

end

/-- Field lookup in an association list of JSON object fields. -/
def lookupStr : List (String × Json) → String → Option Json
  | [], _ => none
  | (k, v) :: rest, key => if k = key then some v else lookupStr rest key

/-- `j[key]` guarded by `key in j`: `some` exactly when `j` is an object
containing `key` (Python's `in` on a non-dict body never finds the string
key for the bodies the client handles, so non-objects yield `none`). -/
def Json.lookupField (j : Json) (key : String) : Option Json :=
  match j with
  | .obj fs => lookupStr fs key
  | _ => none

/-- The keys of a JSON object, in order; `[]` for non-objects. -/
def Json.keys : Json → List String
  | .obj fs => fs.map Prod.fst
  | _ => []

/-- How a Python f-string renders a value bound to a JSON payload: a `str`
renders as its own characters; other values are rendered from their JSON
form (only strings occur in the flows specified for the client). -/
def pyStrOfJson : Json → String
  | .str s => s
  | j => json_dumps j

/-- Whether `needle` occurs at the head of `haystack`. -/
def charListHasLead : List Char → List Char → Bool
  | _, [] => true
  | [], _ :: _ => false
  | a :: as, b :: bs => a == b && charListHasLead as bs

/-- Whether `needle` occurs anywhere inside the second list. -/
def charListHasSub (needle : List Char) : List Char → Bool
  | [] => charListHasLead [] needle
  | c :: rest => charListHasLead (c :: rest) needle || charListHasSub needle rest

/-- Substring test on strings (haystack first). -/
def strContainsSub (haystack needle : String) : Bool :=
  charListHasSub needle.toList haystack.toList

/-- Value of a hexadecimal digit, both cases accepted. -/
def hexDigitVal (c : Char) : Option Nat :=
  if '0' ≤ c ∧ c ≤ '9' then some (c.toNat - '0'.toNat)
  else if 'a' ≤ c ∧ c ≤ 'f' then some (c.toNat - 'a'.toNat + 10)
  else if 'A' ≤ c ∧ c ≤ 'F' then some (c.toNat - 'A'.toNat + 10)
  else none

/-- Percent-decoding over characters: `%XY` with two hex digits becomes the
character of that byte value, anything else is copied (multi-byte UTF-8
percent-sequences are out of scope for the URLs the spec discusses). -/
def unquoteChars : List Char → List Char
  | '%' :: a :: b :: rest =>
    match hexDigitVal a, hexDigitVal b with
    | some x, some y => Char.ofNat (16 * x + y) :: unquoteChars rest
    | _, _ => '%' :: unquoteChars (a :: b :: rest)
  | c :: rest => c :: unquoteChars rest
  | [] => []

/-- `urllib.parse.unquote`. -/
def unquote (s : String) : String :=
  String.mk (unquoteChars s.toList)

/-- Characters allowed inside a URL scheme after the leading letter. -/
def schemeChar (c : Char) : Bool :=
  c.isAlphanum || c == '+' || c == '-' || c == '.'

/-- Split a character list at its first colon, returning the parts before
and after it. -/
def splitAtColon : List Char → Option (List Char × List Char)
  | [] => none
  | c :: rest =>
    if c = ':' then some ([], rest)
    else
      match splitAtColon rest with
      | some (before, after) => some (c :: before, after)
      | none => none

/-- A non-empty candidate scheme: a letter followed by scheme characters. -/
def validSchemeChars : List Char → Bool
  | [] => false
  | c :: rest => c.isAlpha && (c :: rest).all schemeChar

/-- The `netloc` component: everything up to the first of `/`, `?`, `#`. -/
def takeNetloc (cs : List Char) : List Char :=
  cs.takeWhile fun c => c != '/' && c != '?' && c != '#'

/-- The two components of `urllib.parse.urlparse` that `is_valid_url`
inspects. -/
structure ParseResult where
  scheme : String
  netloc : String

/-- `urllib.parse.urlparse`, restricted to the `scheme` and `netloc`
components: the text before the first colon is the scheme when it is a
letter followed by scheme characters (lower-cased); the netloc is present
exactly when the remainder starts with `//`. -/
def urlparse (url : String) : ParseResult :=
  let cs := url.toList
  let schemeRest : List Char × List Char :=
    match splitAtColon cs with
    | some (before, after) =>
      if validSchemeChars before then (before.map Char.toLower, after) else ([], cs)
    | none => ([], cs)
  let netloc : List Char :=
    match schemeRest.2 with
    | '/' :: '/' :: r => takeNetloc r
    | _ => []
  ⟨String.mk schemeRest.1, String.mk netloc⟩

/-- `is_valid_url` from `example.py`: URL-decode the input, parse it, and
require both a scheme and a network location. -/
def is_valid_url (input_str : String) : Bool :=
  let decoded_url := unquote input_str
  let parsed_url := urlparse decoded_url
  parsed_url.scheme != "" && parsed_url.netloc != ""

/-- An outgoing HTTP request, as assembled by the client.  A `post` carries
the pieces `requests.post` receives: the `request` form field (already
JSON-encoded), the single file part's name and byte content from
`files = {"file": (str(image_path), file_buffer)}`, and the headers. -/
inductive HttpRequest where
  | get (url : String) (headers : List (String × String))
  | post (url : String) (requestField : String) (fileName : String)
         (fileContent : List Nat) (headers : List (String × String))
deriving DecidableEq

/-- Whether a request is a POST. -/
def HttpRequest.isPost : HttpRequest → Bool
  | .post _ _ _ _ _ => true
  | .get _ _ => false

/-- The JSON-encoded `request` form field of a POST (`""` for a GET). -/
def HttpRequest.requestField : HttpRequest → String
  | .post _ rf _ _ _ => rf
  | .get _ _ => ""

/-- The filename of the multipart `file` part of a POST (`""` for a GET). -/
def HttpRequest.fileName : HttpRequest → String
  | .post _ _ fn _ _ => fn
  | .get _ _ => ""

/-- The byte content of the multipart `file` part of a POST. -/
def HttpRequest.fileContent : HttpRequest → List Nat
  | .post _ _ _ fc _ => fc
  | .get _ _ => []

/-- An HTTP response as the `requests` library presents it: `text` is the
decoded body (`r.text`, the UTF-8 decoding of `content`), `jsonBody`
models the outcome of `json.loads` on that body (`none` when parsing would
raise), and `content` is the raw byte body (`r.content`). -/
structure HttpResponse where
  statusCode : Nat
  reason : String
  text : String
  jsonBody : Option Json
  content : List Nat

/-- The world the client runs against: `isfile` models `os.path.isfile`,
`readFile` the bytes returned by `open(path, "rb").read()` (consulted only
when `isfile` holds), and `http` the transport's response to a request. -/
structure Env where
  isfile : String → Bool
  readFile : String → List Nat
  http : HttpRequest → HttpResponse

/-- The client object: `__init__` stores the server address verbatim. -/
structure MmrApiClient where
  server_url : String
deriving DecidableEq

/-- The exceptions the client can raise.  `server` is the recognition-path
`ValueError` carrying the status code and the detail bound to
`error_message` (the HTTP reason phrase, or the body's `errorMessage`
value); `serverInfo` is the info-path `ValueError`, whose message carries
only the status code; `decodeError` is `json.JSONDecodeError` escaping
from `json.loads`. -/
inductive ClientError where
  | invalidInput
  | imageRead
  | server (statusCode : Nat) (errorMessage : Json)
  | serverInfo (statusCode : Nat)
  | decodeError

/-- The message string of each raised exception, exactly as the f-strings
in `example.py` build it (`decodeError`'s text is produced by the `json`
module and depends on the input; the client does not construct it). -/
def ClientError.message : ClientError → String
  | .invalidInput => "Input is neither a valid file path nor a URL."
  | .imageRead => "Failed to read image."
  | .server code m => "Server returned error code " ++ toString code ++ " : " ++ pyStrOfJson m
  | .serverInfo code => "Server returned error code " ++ toString code
  | .decodeError => "Expecting value: line 1 column 1 (char 0)"

/-- Everything observable about one `info` call: the client object after
the call, the requests issued, the lines printed to standard output, and
the returned value or raised exception. -/
structure InfoOutcome where
  client : MmrApiClient
  trace : List HttpRequest
  printed : List String
  result : Except ClientError Json

/-- Everything observable about one `recognition` call. -/
structure RecognitionOutcome where
  client : MmrApiClient
  trace : List HttpRequest
  result : Except ClientError Json

/-- The GET issued by `info`: `<server_url>info` with the key in the
lower-case `apikey` header. -/
def infoRequest (server_url api_key : String) : HttpRequest :=
  .get (server_url ++ "info") [("apikey", api_key)]

/-- `MmrApiClient.info` from `example.py`.  On a non-200 status it prints
`f"{r.status_code} {r.reason} - {r.text}"` and raises
`ValueError(f"Server returned error code {r.status_code}")`; on 200 it
returns `json.loads` of the body. -/
def info (env : Env) (client : MmrApiClient) (api_key : String) : InfoOutcome :=
  let req := infoRequest client.server_url api_key
  let r := env.http req
  if r.statusCode ≠ 200 then
    ⟨client, [req], [toString r.statusCode ++ " " ++ r.reason ++ " - " ++ r.text],
     .error (.serverInfo r.statusCode)⟩
  else
    match r.jsonBody with
    | none => ⟨client, [req], [], .error .decodeError⟩
    | some info_result => ⟨client, [req], [], .ok info_result⟩

/-- The `request` dictionary built by `recognition` (lines 86–91). -/
def requestJson (save_image save_plate_text : Bool) (tasks : List String)
    (ocr_module_id : Int) : Json :=
  Json.obj [("saveImage", .bool save_image),
            ("savePlateText", .bool save_plate_text),
            ("tasks", .arr (tasks.map .str)),
            ("ocrModuleId", .num ocr_module_id)]

/-- The POST issued by `recognition`: `<server_url>recognition` with the
JSON-encoded `request` field, the file part named by the original input
string, and the key in the `apiKey` header. -/
def recogPostRequest (server_url api_key image_path : String)
    (save_image save_plate_text : Bool) (tasks : List String)
    (ocr_module_id : Int) (file_buffer : List Nat) : HttpRequest :=
  .post (server_url ++ "recognition")
        (json_dumps (requestJson save_image save_plate_text tasks ocr_module_id))
        image_path file_buffer [("apiKey", api_key)]

/-- Lines 80–107 of `example.py`: once a byte buffer is in hand, build the
multipart POST, send it, and decode the response.  On non-200, the detail
starts as `r.reason`; when the body is non-empty it is fed to
`json.loads` (which raises on invalid JSON), and an `errorMessage` field
overrides the detail.  On 200, the body is decoded and returned. -/
def finishRecognition (env : Env) (client : MmrApiClient)
    (api_key image_path : String) (save_image save_plate_text : Bool)
    (tasks : List String) (ocr_module_id : Int)
    (trace : List HttpRequest) (file_buffer : List Nat) : RecognitionOutcome :=
  let req := recogPostRequest client.server_url api_key image_path
    save_image save_plate_text tasks ocr_module_id file_buffer
  let r := env.http req
  if r.statusCode ≠ 200 then
    if r.text ≠ "" then
      match r.jsonBody with
      | none => ⟨client, trace ++ [req], .error .decodeError⟩
      | some returned_json =>
        match returned_json.lookupField "errorMessage" with
        | some v => ⟨client, trace ++ [req], .error (.server r.statusCode v)⟩
        | none => ⟨client, trace ++ [req], .error (.server r.statusCode (.str r.reason))⟩
    else
      ⟨client, trace ++ [req], .error (.server r.statusCode (.str r.reason))⟩
  else
    match r.jsonBody with
    | none => ⟨client, trace ++ [req], .error .decodeError⟩
    | some classification => ⟨client, trace ++ [req], .ok classification⟩

/-- `MmrApiClient.recognition` from `example.py`.  Classify the input: an
existing file is read into the buffer; otherwise a string accepted by
`is_valid_url` is fetched with a GET, the body becoming the buffer only on
status 200 (`ValueError("Failed to read image.")` otherwise); any other
string raises `ValueError("Input is neither a valid file path nor a
URL.")` before any request is made. -/
def recognition (env : Env) (client : MmrApiClient)
    (api_key image_path : String) (save_image save_plate_text : Bool)
    (tasks : List String) (ocr_module_id : Int) : RecognitionOutcome :=
  if env.isfile image_path then
    finishRecognition env client api_key image_path save_image save_plate_text
      tasks ocr_module_id [] (env.readFile image_path)
  else if is_valid_url image_path then
    let response := env.http (.get image_path [])
    if response.statusCode = 200 then
      finishRecognition env client api_key image_path save_image save_plate_text
        tasks ocr_module_id [.get image_path []] response.content
    else
      ⟨client, [.get image_path []], .error .imageRead⟩
  else
    ⟨client, [], .error .invalidInput⟩

/-- `recognition` with the defaults of the Python signature:
`save_image=False`, `save_plate_text=True`,
`tasks=["DETECTION", "OCR", "MMR"]`, `ocr_module_id=801`. -/
def recognition_defaults (env : Env) (client : MmrApiClient)
    (api_key image_path : String) : RecognitionOutcome :=
  recognition env client api_key image_path false true
    ["DETECTION", "OCR", "MMR"] 801

/-- World for exercising the POST path: the input is a local file of bytes
`[3]` and the server answers 200 with body `{}`. -/
def envAnyOk : Env :=
  ⟨fun _ => true, fun _ => [3], fun _ => ⟨200, "OK", "\x7b\x7d", some (Json.obj []), []⟩⟩

/-- World where the recognition POST is answered 500 with the non-empty,
non-JSON body `oops`. -/
def envC1 : Env :=
  ⟨fun _ => true, fun _ => [1], fun _ => ⟨500, "Internal Server Error", "oops", none, []⟩⟩

/-- World where the recognition POST is answered 500 with an empty body. -/
def envEmptyBody : Env :=
  ⟨fun _ => true, fun _ => [1], fun _ => ⟨500, "Internal Server Error", "", none, []⟩⟩

/-- World where the recognition POST is answered 403 with body
`{"errorMessage": "bad key"}`. -/
def envBadKey : Env :=
  ⟨fun _ => true, fun _ => [2],
   fun _ => ⟨403, "Forbidden", "\x7b\"errorMessage\": \"bad key\"\x7d",
             some (Json.obj [("errorMessage", Json.str "bad key")]), []⟩⟩

/-- World where every request is answered 404 and no path is a file. -/
def envNotFound : Env :=
  ⟨fun _ => false, fun _ => [], fun _ => ⟨404, "Not Found", "", none, []⟩⟩

/-- World with no local files and an all-200 transport serving bytes
`[7, 8]`. -/
def envRemote200 : Env :=
  ⟨fun _ => false, fun _ => [],
   fun _ => ⟨200, "OK", "ok", some (Json.str "ok"), [7, 8]⟩⟩

theorem finishRecognition_client (env : Env) (client : MmrApiClient)
    (api_key image_path : String) (si spt : Bool) (ts : List String) (omi : Int)
    (tr : List HttpRequest) (buf : List Nat) :
    (finishRecognition env client api_key image_path si spt ts omi tr buf).client
      = client := by
  simp only [finishRecognition]
  repeat' split
  all_goals rfl

theorem finishRecognition_trace (env : Env) (client : MmrApiClient)
    (api_key image_path : String) (si spt : Bool) (ts : List String) (omi : Int)
    (tr : List HttpRequest) (buf : List Nat) :
    (finishRecognition env client api_key image_path si spt ts omi tr buf).trace
      = tr ++ [recogPostRequest client.server_url api_key image_path si spt ts omi buf] := by
  simp only [finishRecognition]
  repeat' split
  all_goals rfl

theorem recognition_posts (env : Env) (client : MmrApiClient)
    (api_key image_path : String) (si spt : Bool) (ts : List String) (omi : Int) :
    ∀ req ∈ (recognition env client api_key image_path si spt ts omi).trace,
      req.isPost = true →
      ∃ buf, req = recogPostRequest client.server_url api_key image_path si spt ts omi buf := by
  intro req hreq hpost
  unfold recognition at hreq
  by_cases h1 : env.isfile image_path = true
  · simp only [h1, if_true, finishRecognition_trace, List.nil_append,
      List.mem_singleton] at hreq
    exact ⟨env.readFile image_path, hreq⟩
  · simp only [h1, if_false, Bool.false_eq_true] at hreq
    by_cases h2 : is_valid_url image_path = true
    · simp only [h2, if_true] at hreq
      by_cases h3 : (env.http (.get image_path [])).statusCode = 200
      · simp only [h3, if_true, finishRecognition_trace, List.cons_append,
          List.nil_append, List.mem_cons, List.mem_singleton] at hreq
        rcases hreq with hget | hp | h0
        · rw [hget] at hpost
          exact absurd hpost (by simp [HttpRequest.isPost])
        · exact ⟨(env.http (.get image_path [])).content, hp⟩
        · exact absurd h0 (List.not_mem_nil req)
      · simp only [h3, if_false] at hreq
        simp only [List.mem_singleton] at hreq
        rw [hreq] at hpost
        exact absurd hpost (by simp [HttpRequest.isPost])
    · simp only [h2, if_false, Bool.false_eq_true] at hreq
      simp at hreq

/-- C5: for every input string that is neither an existing local file path
nor a string whose URL-decoded form parses to a URL with both a scheme and
a network location, `recognition` fails with the invalid-input error and
issues no HTTP request of any kind (the request trace is empty). -/
theorem recognition_invalid_input (env : Env) (client : MmrApiClient)
    (api_key image_path : String) (si spt : Bool) (ts : List String) (omi : Int)
    (hfile : env.isfile image_path = false)
    (hurl : is_valid_url image_path = false) :
    recognition env client api_key image_path si spt ts omi
      = ⟨client, [], .error .invalidInput⟩ := by
  unfold recognition
  rw [hfile, hurl]
  simp

theorem recognition_invalid_input_witness :
    recognition envNotFound ⟨"https://trafficeye.ai/"⟩ "key" "not a url"
        false true ["DETECTION", "OCR", "MMR"] 801
      = ⟨⟨"https://trafficeye.ai/"⟩, [], .error .invalidInput⟩ :=
  recognition_invalid_input envNotFound ⟨"https://trafficeye.ai/"⟩ "key"
    "not a url" false true ["DETECTION", "OCR", "MMR"] 801 rfl (by decide)

/-- C6: for every input string naming an existing local file, `recognition`
issues exactly one request — the POST — whose `file` part carries the
file's bytes byte-for-byte and the input string as filename; in
particular no GET is issued even if the string would also parse as a
URL. -/
theorem recognition_local_file (env : Env) (client : MmrApiClient)
    (api_key image_path : String) (si spt : Bool) (ts : List String) (omi : Int)
    (hfile : env.isfile image_path = true) :
    (recognition env client api_key image_path si spt ts omi).trace
      = [recogPostRequest client.server_url api_key image_path si spt ts omi
          (env.readFile image_path)]
    ∧ (recogPostRequest client.server_url api_key image_path si spt ts omi
        (env.readFile image_path)).fileContent = env.readFile image_path
    ∧ (recogPostRequest client.server_url api_key image_path si spt ts omi
        (env.readFile image_path)).fileName = image_path
    ∧ ∀ req ∈ (recognition env client api_key image_path si spt ts omi).trace,
        req.isPost = true := by
  have h1 : (recognition env client api_key image_path si spt ts omi).trace
      = [recogPostRequest client.server_url api_key image_path si spt ts omi
          (env.readFile image_path)] := by
    unfold recognition
    rw [hfile]
    simp [finishRecognition_trace]
  refine ⟨h1, rfl, rfl, ?_⟩
  rw [h1]
  intro req hreq
  rw [List.mem_singleton] at hreq
  rw [hreq]
  rfl

theorem recognition_local_file_witness :
    (recognition envAnyOk ⟨"https://trafficeye.ai/"⟩ "key" "car.jpg"
        false true ["DETECTION", "OCR", "MMR"] 801).trace
      = [recogPostRequest "https://trafficeye.ai/" "key" "car.jpg"
          false true ["DETECTION", "OCR", "MMR"] 801 [3]]
    ∧ (recogPostRequest "https://trafficeye.ai/" "key" "car.jpg"
        false true ["DETECTION", "OCR", "MMR"] 801 [3]).fileContent = [3] := by
  have h := recognition_local_file envAnyOk ⟨"https://trafficeye.ai/"⟩ "key"
    "car.jpg" false true ["DETECTION", "OCR", "MMR"] 801 rfl
  exact ⟨h.1, h.2.1⟩

/-- C7: for every input classified as a remote URL (not an existing file,
accepted by `is_valid_url`), if the image GET returns a status other than
200 then `recognition` fails with the image-read error and the trace holds
only that GET — the recognition POST is never built or sent. -/
theorem recognition_remote_fetch_failure (env : Env) (client : MmrApiClient)
    (api_key image_path : String) (si spt : Bool) (ts : List String) (omi : Int)
    (hfile : env.isfile image_path = false)
    (hurl : is_valid_url image_path = true)
    (hcode : (env.http (.get image_path [])).statusCode ≠ 200) :
    recognition env client api_key image_path si spt ts omi
      = ⟨client, [.get image_path []], .error .imageRead⟩ := by
  unfold recognition
  rw [hfile, hurl]
  simp [hcode]

theorem recognition_remote_fetch_failure_witness :
    recognition envNotFound ⟨"https://trafficeye.ai/"⟩ "key"
        "http://example.com" false true ["DETECTION", "OCR", "MMR"] 801
      = ⟨⟨"https://trafficeye.ai/"⟩, [.get "http://example.com" []],
         .error .imageRead⟩ :=
  recognition_remote_fetch_failure envNotFound ⟨"https://trafficeye.ai/"⟩
    "key" "http://example.com" false true ["DETECTION", "OCR", "MMR"] 801
    rfl (by decide) (by decide)

/-- C10: for every remote image source, the URL-decoded string feeds only
the `is_valid_url` classification; the GET fetching the image bytes and
the filename of the multipart `file` part both use the original,
non-decoded input string verbatim. -/
theorem recognition_remote_verbatim (env : Env) (client : MmrApiClient)
    (api_key image_path : String) (si spt : Bool) (ts : List String) (omi : Int)
    (hfile : env.isfile image_path = false)
    (hurl : is_valid_url image_path = true)
    (hcode : (env.http (.get image_path [])).statusCode = 200) :
    (recognition env client api_key image_path si spt ts omi).trace
      = [.get image_path [],
         recogPostRequest client.server_url api_key image_path si spt ts omi
           (env.http (.get image_path [])).content]
    ∧ (recogPostRequest client.server_url api_key image_path si spt ts omi
        (env.http (.get image_path [])).content).fileName = image_path := by
  constructor
  · unfold recognition
    rw [hfile, hurl]
    simp [hcode, finishRecognition_trace]
  · rfl

theorem recognition_remote_verbatim_witness :
    (recognition envRemote200 ⟨"https://trafficeye.ai/"⟩ "key"
        "http%3A//example.com" false true ["DETECTION", "OCR", "MMR"] 801).trace
      = [.get "http%3A//example.com" [],
         recogPostRequest "https://trafficeye.ai/" "key" "http%3A//example.com"
           false true ["DETECTION", "OCR", "MMR"] 801 [7, 8]]
    ∧ (recogPostRequest "https://trafficeye.ai/" "key" "http%3A//example.com"
        false true ["DETECTION", "OCR", "MMR"] 801 [7, 8]).fileName
      = "http%3A//example.com" :=
  recognition_remote_verbatim envRemote200 ⟨"https://trafficeye.ai/"⟩ "key"
    "http%3A//example.com" false true ["DETECTION", "OCR", "MMR"] 801
    rfl (by decide) rfl

/-- C1 (amended): on a non-200 response to the recognition POST, an empty
body yields the server error with detail equal to the HTTP reason phrase,
but a non-empty body that is not valid JSON makes `json.loads` raise a
decode error in place of the server error. -/
theorem recognition_error_empty_vs_nonjson (env : Env) (client : MmrApiClient)
    (api_key image_path : String) (si spt : Bool) (ts : List String) (omi : Int)
    (tr : List HttpRequest) (buf : List Nat) (r : HttpResponse)
    (hr : env.http (recogPostRequest client.server_url api_key image_path
            si spt ts omi buf) = r)
    (hcode : r.statusCode ≠ 200) :
    (r.text = "" →
      (finishRecognition env client api_key image_path si spt ts omi tr buf).result
        = .error (.server r.statusCode (.str r.reason)))
    ∧ (r.text ≠ "" → r.jsonBody = none →
      (finishRecognition env client api_key image_path si spt ts omi tr buf).result
        = .error .decodeError) := by
  constructor
  · intro htext
    simp only [finishRecognition]
    rw [hr, if_pos hcode, if_neg (by simp [htext])]
  · intro htext hjson
    simp only [finishRecognition]
    rw [hr, if_pos hcode, if_pos htext, hjson]

theorem recognition_error_empty_body_witness :
    (finishRecognition envEmptyBody ⟨"https://trafficeye.ai/"⟩ "key" "car.jpg"
        false true ["DETECTION", "OCR", "MMR"] 801 [] [1]).result
      = .error (.server 500 (.str "Internal Server Error")) :=
  (recognition_error_empty_vs_nonjson envEmptyBody ⟨"https://trafficeye.ai/"⟩
    "key" "car.jpg" false true ["DETECTION", "OCR", "MMR"] 801 [] [1]
    ⟨500, "Internal Server Error", "", none, []⟩ rfl (by decide)).1 rfl

/-- C1 counterexample: a 500 response with the non-empty non-JSON body
`oops` makes `recognition` raise the JSON decode error, not a server error
carrying the reason phrase `Internal Server Error`. -/
theorem recognition_nonjson_masks_reason :
    (recognition envC1 ⟨"https://trafficeye.ai/"⟩ "key" "car.jpg"
        false true ["DETECTION", "OCR", "MMR"] 801).result
      = .error .decodeError
    ∧ (recognition envC1 ⟨"https://trafficeye.ai/"⟩ "key" "car.jpg"
        false true ["DETECTION", "OCR", "MMR"] 801).result
      ≠ .error (.server 500 (.str "Internal Server Error")) := by
  have hres : (recognition envC1 ⟨"https://trafficeye.ai/"⟩ "key" "car.jpg"
      false true ["DETECTION", "OCR", "MMR"] 801).result
      = .error .decodeError := rfl
  refine ⟨hres, ?_⟩
  rw [hres]
  intro h
  injection h with h2
  exact ClientError.noConfusion h2

/-- C3: on a non-200 response to the recognition POST whose body is the
JSON object `{"errorMessage": "bad key"}`, the raised server error's
detail message equals `bad key`. -/
theorem recognition_error_message_field (env : Env) (client : MmrApiClient)
    (api_key image_path : String) (si spt : Bool) (ts : List String) (omi : Int)
    (tr : List HttpRequest) (buf : List Nat) (r : HttpResponse)
    (hr : env.http (recogPostRequest client.server_url api_key image_path
            si spt ts omi buf) = r)
    (hcode : r.statusCode ≠ 200)
    (htext : r.text = "\x7b\"errorMessage\": \"bad key\"\x7d")
    (hjson : r.jsonBody = some (Json.obj [("errorMessage", Json.str "bad key")])) :
    (finishRecognition env client api_key image_path si spt ts omi tr buf).result
      = .error (.server r.statusCode (.str "bad key"))
    ∧ pyStrOfJson (Json.str "bad key") = "bad key" := by
  refine ⟨?_, rfl⟩
  simp only [finishRecognition]
  rw [hr, if_pos hcode, if_pos (by rw [htext]; decide), hjson]
  rfl

theorem recognition_error_message_field_witness :
    (finishRecognition envBadKey ⟨"https://trafficeye.ai/"⟩ "key" "car.jpg"
        false true ["DETECTION", "OCR", "MMR"] 801 [] [2]).result
      = .error (.server 403 (.str "bad key"))
    ∧ pyStrOfJson (Json.str "bad key") = "bad key" :=
  recognition_error_message_field envBadKey ⟨"https://trafficeye.ai/"⟩ "key"
    "car.jpg" false true ["DETECTION", "OCR", "MMR"] 801 [] [2]
    ⟨403, "Forbidden", "\x7b\"errorMessage\": \"bad key\"\x7d",
     some (Json.obj [("errorMessage", Json.str "bad key")]), []⟩
    rfl (by decide) rfl rfl

/-- C2 (amended): on a non-200 response to the info GET, the raised error's
message carries only the numeric status code; the status code, reason
phrase and body text are printed to standard output before raising, so the
reason phrase reaches the console but not the raised error. -/
theorem info_error_shape (env : Env) (client : MmrApiClient)
    (api_key : String) (r : HttpResponse)
    (hr : env.http (infoRequest client.server_url api_key) = r)
    (hcode : r.statusCode ≠ 200) :
    (info env client api_key).result = .error (.serverInfo r.statusCode)
    ∧ ClientError.message (.serverInfo r.statusCode)
        = "Server returned error code " ++ toString r.statusCode
    ∧ (info env client api_key).printed
        = [toString r.statusCode ++ " " ++ r.reason ++ " - " ++ r.text] := by
  refine ⟨?_, rfl, ?_⟩
  · simp only [info]
    rw [hr, if_pos hcode]
  · simp only [info]
    rw [hr, if_pos hcode]

theorem info_error_shape_witness :
    (info envNotFound ⟨"https://trafficeye.ai/"⟩ "key").result
      = .error (.serverInfo 404)
    ∧ ClientError.message (.serverInfo 404)
        = "Server returned error code " ++ toString 404
    ∧ (info envNotFound ⟨"https://trafficeye.ai/"⟩ "key").printed
        = [toString 404 ++ " " ++ "Not Found" ++ " - " ++ ""] :=
  info_error_shape envNotFound ⟨"https://trafficeye.ai/"⟩ "key"
    ⟨404, "Not Found", "", none, []⟩ rfl (by decide)

/-- C2 counterexample: for a 404 info response with reason phrase
`Not Found`, the raised error's message is `Server returned error code
404`: it contains the status code but not the reason phrase, which only
appears in the printed line. -/
theorem info_error_reason_missing :
    (info envNotFound ⟨"https://trafficeye.ai/"⟩ "key").result
      = .error (.serverInfo 404)
    ∧ ClientError.message (.serverInfo 404) = "Server returned error code 404"
    ∧ strContainsSub (ClientError.message (.serverInfo 404)) "Not Found" = false
    ∧ strContainsSub (ClientError.message (.serverInfo 404)) "404" = true
    ∧ (info envNotFound ⟨"https://trafficeye.ai/"⟩ "key").printed
      = ["404 Not Found - "] := by
  exact ⟨rfl, by decide, by decide, by decide, by decide⟩

/-- C4: every POST sent by `recognition` carries a `request` form field
that is the JSON encoding of an object with exactly the keys `saveImage`,
`savePlateText`, `tasks`, `ocrModuleId`, and under the Python defaults the
values are `false`, `true`, `["DETECTION", "OCR", "MMR"]`, `801`. -/
theorem recognition_request_field_exact (env : Env) (client : MmrApiClient)
    (api_key image_path : String) (si spt : Bool) (ts : List String) (omi : Int) :
    (∀ req ∈ (recognition env client api_key image_path si spt ts omi).trace,
       req.isPost = true →
       req.requestField = json_dumps (requestJson si spt ts omi))
    ∧ Json.keys (requestJson si spt ts omi)
        = ["saveImage", "savePlateText", "tasks", "ocrModuleId"]
    ∧ Json.lookupField (requestJson false true ["DETECTION", "OCR", "MMR"] 801)
        "saveImage" = some (Json.bool false)
    ∧ Json.lookupField (requestJson false true ["DETECTION", "OCR", "MMR"] 801)
        "savePlateText" = some (Json.bool true)
    ∧ Json.lookupField (requestJson false true ["DETECTION", "OCR", "MMR"] 801)
        "tasks" = some (Json.arr [.str "DETECTION", .str "OCR", .str "MMR"])
    ∧ Json.lookupField (requestJson false true ["DETECTION", "OCR", "MMR"] 801)
        "ocrModuleId" = some (Json.num 801)
    ∧ ∀ req ∈ (recognition_defaults env client api_key image_path).trace,
        req.isPost = true →
        req.requestField
          = json_dumps (requestJson false true ["DETECTION", "OCR", "MMR"] 801) := by
  refine ⟨?_, rfl, rfl, rfl, rfl, rfl, ?_⟩
  · intro req hreq hpost
    obtain ⟨buf, hb⟩ := recognition_posts env client api_key image_path
      si spt ts omi req hreq hpost
    rw [hb]
    rfl
  · intro req hreq hpost
    obtain ⟨buf, hb⟩ := recognition_posts env client api_key image_path
      false true ["DETECTION", "OCR", "MMR"] 801 req hreq hpost
    rw [hb]
    rfl

theorem recognition_request_field_exact_witness :
    (recogPostRequest "https://trafficeye.ai/" "key" "car.jpg"
        true false ["OCR"] 7 [3]).requestField
      = json_dumps (requestJson true false ["OCR"] 7) :=
  (recognition_request_field_exact envAnyOk ⟨"https://trafficeye.ai/"⟩ "key"
      "car.jpg" true false ["OCR"] 7).1
    (recogPostRequest "https://trafficeye.ai/" "key" "car.jpg"
      true false ["OCR"] 7 [3])
    (by decide) rfl

/-- C8 (amended): a call to `recognition` with the Python defaults sends a
`tasks` value that is the non-empty list `["DETECTION", "OCR", "MMR"]` and
an `ocrModuleId` of `801`, a positive integer; `recognition` itself never
validates caller-supplied `tasks` or `ocr_module_id`. -/
theorem recognition_defaults_invariant (env : Env) (client : MmrApiClient)
    (api_key image_path : String) :
    (∀ req ∈ (recognition_defaults env client api_key image_path).trace,
       req.isPost = true →
       req.requestField
         = json_dumps (requestJson false true ["DETECTION", "OCR", "MMR"] 801))
    ∧ Json.lookupField (requestJson false true ["DETECTION", "OCR", "MMR"] 801)
        "tasks" = some (Json.arr [.str "DETECTION", .str "OCR", .str "MMR"])
    ∧ ([Json.str "DETECTION", .str "OCR", .str "MMR"] : List Json) ≠ []
    ∧ Json.lookupField (requestJson false true ["DETECTION", "OCR", "MMR"] 801)
        "ocrModuleId" = some (Json.num 801)
    ∧ (0 : Int) < 801 := by
  refine ⟨?_, rfl, by simp, rfl, by decide⟩
  intro req hreq hpost
  obtain ⟨buf, hb⟩ := recognition_posts env client api_key image_path
    false true ["DETECTION", "OCR", "MMR"] 801 req hreq hpost
  rw [hb]
  rfl

theorem recognition_defaults_invariant_witness :
    (recogPostRequest "https://trafficeye.ai/" "key" "car.jpg"
        false true ["DETECTION", "OCR", "MMR"] 801 [3]).requestField
      = json_dumps (requestJson false true ["DETECTION", "OCR", "MMR"] 801) :=
  (recognition_defaults_invariant envAnyOk ⟨"https://trafficeye.ai/"⟩ "key"
      "car.jpg").1
    (recogPostRequest "https://trafficeye.ai/" "key" "car.jpg"
      false true ["DETECTION", "OCR", "MMR"] 801 [3])
    (by decide) rfl

/-- C8 counterexample: `recognition` called with `tasks = []` and
`ocr_module_id = 0` still sends the POST, whose `request` field encodes an
empty `tasks` list and the non-positive `ocrModuleId` `0` — the code never
validates these arguments. -/
theorem recognition_sends_unvalidated_args :
    (recognition envAnyOk ⟨"https://trafficeye.ai/"⟩ "key" "car.jpg"
        false true [] 0).trace
      = [HttpRequest.post "https://trafficeye.ai/recognition"
          (json_dumps (requestJson false true [] 0)) "car.jpg" [3]
          [("apiKey", "key")]]
    ∧ Json.lookupField (requestJson false true [] 0) "tasks"
        = some (Json.arr [])
    ∧ Json.lookupField (requestJson false true [] 0) "ocrModuleId"
        = some (Json.num 0)
    ∧ ¬ (0 : Int) < 0 := by
  exact ⟨rfl, rfl, rfl, by decide⟩

/-- C9: neither `info` nor `recognition` mutates the client object — the
stored `server_url` is unchanged by every call — and repeating an `info`
call with the same key against the same environment returns the same
outcome. -/
theorem client_state_unchanged (env : Env) (client : MmrApiClient)
    (api_key image_path : String) (si spt : Bool) (ts : List String) (omi : Int) :
    (info env client api_key).client = client
    ∧ (info env client api_key).client.server_url = client.server_url
    ∧ (recognition env client api_key image_path si spt ts omi).client = client
    ∧ info env ((info env client api_key).client) api_key
        = info env client api_key := by
  have hinfo : (info env client api_key).client = client := by
    simp only [info]
    split
    · rfl
    · split <;> rfl
  have hrec : (recognition env client api_key image_path si spt ts omi).client
      = client := by
    simp only [recognition]
    split
    · rw [finishRecognition_client]
    · split
      · split
        · rw [finishRecognition_client]
        · rfl
      · rfl
  exact ⟨hinfo, by rw [hinfo], hrec, by rw [hinfo]⟩

end TrafficEye
